import Mathlib

/- Shallow embedding of the RAG chatbot backend (Python/FastAPI source):
   validators, error taxonomy, RAG orchestrator, query/health HTTP handlers,
   persistence retry decorator, persistence analytics, analytics service and
   metrics summaries.  Machine floats in the source are modelled as exact
   rationals; wall-clock readings and log output are elided. -/

/-- Python exception classes relevant to the pipeline.  The source has TWO
distinct `ValidationError` classes: `app.utils.validators.ValidationError`
(a direct `Exception` subclass, the one the validators raise) and
`app.utils.exceptions.ValidationError` (a `ChatbotException` subclass, the
one the query handler imports); neither is a subclass of the other, so an
`except` clause for one does not catch the other. -/
inductive PyExc where
  | validatorsValidationError (msg : String)
  | chatbotValidationError (msg : String)
  | qdrantUnavailableError (msg : String)
  | geminiAPIError (msg : String)
  | databaseError (msg : String)
  | unboundLocalError (name : String)
  | otherError (msg : String)
  deriving DecidableEq

/- Constants from src/backend/app/core/constants.py. -/

def MIN_QUERY_LENGTH : Nat := 5

def MAX_QUERY_LENGTH : Nat := 2000

def MAX_CONTEXT_LENGTH : Nat := 4000

def MAX_RETRIEVED_CHUNKS : Nat := 5

def MIN_CONFIDENCE_SCORE : ℚ := 3/10

def SESSION_ID_PATTERN : String := "^[a-zA-Z0-9\\-_]\x7b10,50\x7d$"

/-- Characters stripped by Python `str.strip()` (the ASCII whitespace
subset, which is what can occur in the modelled inputs). -/
def isPySpace (c : Char) : Bool :=
  c = ' ' || c = '\t' || c = '\n' || c = '\r' || c = '\x0b' || c = '\x0c'

/-- Python `s.strip()`: drop leading and trailing whitespace. -/
def pyStrip (s : List Char) : List Char :=
  ((s.dropWhile isPySpace).reverse.dropWhile isPySpace).reverse

/-- `validate_query_length` from src/backend/app/utils/validators.py:
checks `len(query.strip())` against MIN/MAX_QUERY_LENGTH, raising the
validators-module `ValidationError` (message strings with the constants
already interpolated, as the f-strings produce). -/
def validate_query_length (query : String) : Except PyExc Unit :=
  let length := (pyStrip query.toList).length
  if length < MIN_QUERY_LENGTH then
    .error (.validatorsValidationError
      "Query too short. Minimum length is 5 characters.")
  else if length > MAX_QUERY_LENGTH then
    .error (.validatorsValidationError
      "Query too long. Maximum length is 2000 characters.")
  else .ok ()

/-- One character of the class `[a-zA-Z0-9\-_]` (ASCII ranges). -/
def sessionChar (c : Char) : Bool :=
  ('a' ≤ c && c ≤ 'z') || ('A' ≤ c && c ≤ 'Z') ||
    ('0' ≤ c && c ≤ '9') || c = '-' || c = '_'

/-- Python `re.match(SESSION_ID_PATTERN, s)` for the pattern
`^[a-zA-Z0-9\-_]{10,50}$`: anchored at the start, the class repeated
`k ∈ [10,50]` times (backtracking makes this an existential over `k`),
then `$`, which in Python (without `re.MULTILINE`) matches at the end of
the string OR just before a newline that ends the string. -/
def re_match_session_id (s : List Char) : Bool :=
  (List.range' 10 41).any fun k =>
    decide (k ≤ s.length) && (s.take k).all sessionChar &&
      (decide (s.length = k) ||
        (decide (s.length = k + 1) && decide (s.getLast? = some '\n')))

/-- `validate_session_id` from src/backend/app/utils/validators.py. -/
def validate_session_id (session_id : String) : Except PyExc Unit :=
  if re_match_session_id session_id.toList then .ok ()
  else
    .error (.validatorsValidationError
      ("Invalid session ID format. Must match pattern: " ++ SESSION_ID_PATTERN))

/-- `validate_selected_context`: Python `if context and len(context) > MAX`,
where an absent or empty string is falsy. -/
def validate_selected_context (context : Option String) : Except PyExc Unit :=
  match context with
  | none => .ok ()
  | some c =>
    if c ≠ "" ∧ c.length > MAX_CONTEXT_LENGTH then
      .error (.validatorsValidationError
        "Selected context too long. Maximum length is 4000 characters.")
    else .ok ()

/-- `validate_query_input`: composes the three checks, failing on the first. -/
def validate_query_input (question session_id : String)
    (selected_context : Option String := none) : Except PyExc Unit := do
  validate_query_length question
  validate_session_id session_id
  validate_selected_context selected_context

/-- The request-schema check on `session_id` in `ChatQueryRequest`
(src/backend/app/models/schemas.py): rejected iff falsy (empty) or shorter
than 5 characters. -/
def chat_query_request_session_ok (session_id : String) : Bool :=
  !(session_id = "" || session_id.length < 5)

/- RAG orchestrator (src/backend/app/services/rag_service.py). -/

/-- The scope-constraint prompt from src/backend/app/core/constants.py. -/
def RAG_CONSTRAINT_PROMPT : String :=
  "You are a helpful assistant for the Physical AI & Humanoid Robotics course.\nAnswer ONLY using information provided in the course materials below.\nIf the user asks about something not covered in the course materials, respond with:\n\"I don\x27t have information about this in the course material. Please ask about topics covered in the course.\"\nDo not use any external knowledge or information outside the provided context."

/-- A retrieved chunk: the transient record produced by the vector-search
service.  `text` is always present; the other payload fields are read with
`dict.get` and may be absent. -/
structure Chunk where
  text : String
  similarity_score : Option ℚ := none
  chapter : Option Int := none
  lesson : Option Int := none
  section_ : Option String := none
  deriving DecidableEq

/-- Source reference record built by `_extract_source_references`. -/
structure SourceReference where
  chapter : Option Int
  lesson : Option Int
  section_ : Option String
  deriving DecidableEq

def _extract_source_references (chunks : List Chunk) : List SourceReference :=
  chunks.map fun chunk =>
    { chapter := chunk.chapter, lesson := chunk.lesson, section_ := chunk.section_ }

/-- `_build_augmented_prompt`: joins chunk texts with blank lines, prefixes
the user-selected passage when supplied (Python truthiness: an empty string
counts as absent), and wraps everything in the constraint template. -/
def _build_augmented_prompt (question : String) (chunks : List Chunk)
    (selected_context : Option String := none) : String :=
  let context_text := String.intercalate "\n\n" (chunks.map Chunk.text)
  let context_text :=
    match selected_context with
    | some sc =>
      if sc ≠ "" then
        "🔍 SELECTED PASSAGE (user-highlighted text):\n" ++ sc ++
          "\n\n📚 ADDITIONAL COURSE MATERIAL:\n" ++ context_text
      else context_text
    | none => context_text
  RAG_CONSTRAINT_PROMPT ++ "\n\nCourse Material Context:\n" ++ context_text ++
    "\n\nUser Question: " ++ question ++ "\n\nAnswer:"

/-- `_calculate_confidence_score`: 0.0 for an empty chunk list, otherwise
`clamp(0.3, 1.0, avg_similarity*0.7 + min(len(response)/200, 1.0)*0.3)`
with a missing similarity score read as 0 (`c.get("similarity_score", 0)`).
Arithmetic is modelled exactly over the rationals. -/
def _calculate_confidence_score (chunks : List Chunk) (response : String) : ℚ :=
  if chunks = [] then 0
  else
    let avg_similarity : ℚ :=
      (chunks.map fun c => c.similarity_score.getD 0).sum / (chunks.length : ℚ)
    let response_factor : ℚ := min ((response.length : ℚ) / 200) 1
    let confidence : ℚ := avg_similarity * (7/10) + response_factor * (3/10)
    max MIN_CONFIDENCE_SCORE (min confidence 1)

/-- Arguments of the persistence call made by the pipeline (the three
wall-clock duration fields are elided). -/
structure SaveArgs where
  question : String
  response_text : String
  session_id : String
  source_chapters : List SourceReference
  confidence_score : ℚ
  selected_context : Option String
  deriving DecidableEq

/-- The dict returned by `process_query`. -/
structure RagResult where
  response_text : String
  source_references : List SourceReference
  confidence_score : ℚ
  timestamp : Option String
  deriving DecidableEq

/-- Outcomes of the external calls the orchestrator makes, supplied as an
environment: embedding, vector search, LLM generation, persistence. -/
structure RagEnv where
  generate_embedding : String → Except PyExc (List ℚ)
  search_similar_chunks : List ℚ → Nat → Except PyExc (List Chunk)
  generate_response_for_query : String → String → Except PyExc String
  save_query : SaveArgs → Except PyExc Unit

/-- Which of the generation and persistence calls `process_query` issued. -/
structure RagTrace where
  generation_called : Bool
  save_called : Bool
  deriving DecidableEq

/-- `RAGService.process_query`: validate, embed, retrieve, short-circuit on
zero chunks, augment, generate, attribute and score, persist.  Returns the
pipeline outcome together with the trace of generation/persistence calls. -/
def process_query (env : RagEnv) (question session_id : String)
    (selected_context : Option String := none) :
    Except PyExc RagResult × RagTrace :=
  match validate_query_input question session_id selected_context with
  | .error e => (.error e, ⟨false, false⟩)
  | .ok () =>
    match env.generate_embedding question with
    | .error e => (.error e, ⟨false, false⟩)
    | .ok query_embedding =>
      match env.search_similar_chunks query_embedding MAX_RETRIEVED_CHUNKS with
      | .error e => (.error e, ⟨false, false⟩)
      | .ok retrieved_chunks =>
        if retrieved_chunks = [] then
          (.ok { response_text := "I couldn\x27t find relevant information about your question in the course materials.",
                 source_references := [],
                 confidence_score := 0,
                 timestamp := none }, ⟨false, false⟩)
        else
          let augmented_prompt :=
            _build_augmented_prompt question retrieved_chunks selected_context
          match env.generate_response_for_query question augmented_prompt with
          | .error e => (.error e, ⟨true, false⟩)
          | .ok response_text =>
            let source_references := _extract_source_references retrieved_chunks
            let confidence_score :=
              _calculate_confidence_score retrieved_chunks response_text
            match env.save_query
                ⟨question, response_text, session_id, source_references,
                 confidence_score, selected_context⟩ with
            | .error e => (.error e, ⟨true, true⟩)
            | .ok () =>
              (.ok { response_text := response_text,
                     source_references := source_references,
                     confidence_score := confidence_score,
                     timestamp := none }, ⟨true, true⟩)

/- POST /v1/query handler (src/backend/app/api/v1/query.py). -/

/-- What the handler body can raise: a FastAPI `HTTPException` (re-raised
untouched by the outer handler) or any other Python exception (mapped to a
generic 500 by the outer `except Exception`). -/
inductive HandlerRaise where
  | http (status : Nat) (detail : String)
  | py (e : PyExc)
  deriving DecidableEq

/-- Instance test for the `except ValidationError` clause in the handler,
whose `ValidationError` name is imported from `app.utils.exceptions`. -/
def isChatbotValidationError : PyExc → Bool
  | .chatbotValidationError _ => true
  | _ => false

/-- Python `str(e)` on the modelled exceptions. -/
def pyExcMessage : PyExc → String
  | .validatorsValidationError m => m
  | .chatbotValidationError m => m
  | .qdrantUnavailableError m => m
  | .geminiAPIError m => m
  | .databaseError m => m
  | .unboundLocalError n => n
  | .otherError m => m

/-- Response model of the query endpoint (schemas.py); the handler fills
`timestamp` with the current UTC time, passed in here as `now`. -/
structure ChatResponseSchema where
  response_text : String
  source_references : List SourceReference
  confidence_score : ℚ
  timestamp : String
  deriving DecidableEq

/-- Stage 1 of `query_chatbot`: runs `validate_query_input` inside
`try ... except ValidationError`, where the caught class is
`app.utils.exceptions.ValidationError` — so the validators-module error the
call actually raises is NOT an instance of it and falls through. -/
def handler_stage1 (question session_id : String)
    (selected_context : Option String) : Except HandlerRaise Unit :=
  match validate_query_input question session_id selected_context with
  | .ok () => .ok ()
  | .error e =>
    if isChatbotValidationError e then .error (.http 400 (pyExcMessage e))
    else .error (.py e)

/-- Stages 2-5 of `query_chatbot`: `try: rag_result = await process_query(...)`
with except clauses for QdrantUnavailableError (503), GeminiAPIError (502)
and DatabaseError (caught, warning logged, execution continues — leaving the
local `rag_result` unassigned, modelled as `none`). -/
def handler_stage2 (pipeline : Except PyExc RagResult) :
    Except HandlerRaise (Option RagResult) :=
  match pipeline with
  | .ok r => .ok (some r)
  | .error (.qdrantUnavailableError m) => .error (.http 503 m)
  | .error (.geminiAPIError m) => .error (.http 502 m)
  | .error (.databaseError _) => .ok none
  | .error e => .error (.py e)

/-- The response-building tail of the handler: reads `rag_result`; if the
DatabaseError branch left it unassigned, Python raises UnboundLocalError. -/
def handler_build_response (rag_result : Option RagResult) (now : String) :
    Except HandlerRaise ChatResponseSchema :=
  match rag_result with
  | some r =>
    .ok { response_text := r.response_text,
          source_references := r.source_references,
          confidence_score := r.confidence_score,
          timestamp := now }
  | none => .error (.py (.unboundLocalError "rag_result"))

/-- `query_chatbot`: the whole handler body inside the outer
`except HTTPException: raise` / `except Exception: -> 500` pair.  The
orchestrator call is abstracted by its outcome `pipeline`.  The result is
either `(status, detail)` of a raised HTTPException or the 200 response. -/
def query_chatbot (question session_id : String)
    (selected_context : Option String) (pipeline : Except PyExc RagResult)
    (now : String) : Except (Nat × String) ChatResponseSchema :=
  let body : Except HandlerRaise ChatResponseSchema := do
    handler_stage1 question session_id selected_context
    let rag_result ← handler_stage2 pipeline
    handler_build_response rag_result now
  match body with
  | .ok r => .ok r
  | .error (.http s d) => .error (s, d)
  | .error (.py _) => .error (500, "An unexpected error occurred. Please try again.")

/- GET /v1/health handler (src/backend/app/api/v1/health.py). -/

/-- The overall-status aggregation in `health_check`, given the boolean
outcomes of the three dependency checks:
`all_healthy = q and g and p`; `some_degraded = not all([q, g, p])`;
then `healthy` / elif `degraded` / else `unhealthy`. -/
def health_check_status (qdrant_healthy gemini_healthy postgres_healthy : Bool) :
    String :=
  let all_healthy := qdrant_healthy && gemini_healthy && postgres_healthy
  let some_degraded := !(qdrant_healthy && gemini_healthy && postgres_healthy)
  if all_healthy then "healthy"
  else if some_degraded then "degraded"
  else "unhealthy"

/- Persistence retry decorator (src/backend/app/services/postgres_service.py). -/

/-- Outcome of one attempt of a wrapped database operation: a value, a
SQLAlchemyError, or an exception of any other class. -/
inductive AttemptOutcome (V : Type) where
  | ok (v : V)
  | sqlErr (e : String)
  | otherErr (e : PyExc)
  deriving DecidableEq

/-- What the wrapped call ultimately raises: a SQLAlchemyError re-raised by
the decorator after the final attempt, or a non-database exception that
propagates immediately. -/
inductive RetryErr where
  | db (e : String)
  | nonDb (e : PyExc)
  deriving DecidableEq

/-- The loop body of `retry_on_connection_error`'s wrapper:
`for attempt in range(max_retries + 1)` with `attempt` the current index,
`remaining = max_retries - attempt` further iterations available, and
`delay` the current sleep.  On SQLAlchemyError at the last attempt the
error is re-raised; otherwise the wrapper sleeps `delay` and doubles it
(`delay *= backoff_factor`); any other exception propagates uncaught.
Returns the final outcome together with the list of sleeps performed. -/
def retryLoop {V : Type} (outcomes : Nat → AttemptOutcome V) (backoff : ℚ) :
    Nat → Nat → ℚ → Except RetryErr V × List ℚ
  | attempt, remaining, delay =>
    match outcomes attempt with
    | .ok v => (.ok v, [])
    | .otherErr e => (.error (.nonDb e), [])
    | .sqlErr e =>
      match remaining with
      | 0 => (.error (.db e), [])
      | r + 1 =>
        let p := retryLoop outcomes backoff (attempt + 1) r (delay * backoff)
        (p.1, delay :: p.2)

/-- `retry_on_connection_error(max_retries=3, initial_delay=0.1,
backoff_factor=2)` applied to a wrapped operation whose per-attempt
outcomes are `outcomes` (0.1 is exactly representable here as 1/10;
doubling a binary float is exact, so the rational sleeps coincide with the
float ones). -/
def retry_on_connection_error {V : Type} (outcomes : Nat → AttemptOutcome V)
    (max_retries : Nat := 3) (initial_delay : ℚ := 1/10) (backoff_factor : ℚ := 2) :
    Except RetryErr V × List ℚ :=
  retryLoop outcomes backoff_factor 0 max_retries initial_delay

/- Stored rows and read-side aggregation
   (src/backend/app/services/postgres_service.py, analytics_service.py,
   src/backend/app/core/metrics.py). -/

/-- A stored `ChatQuery` row, restricted to the columns the modelled
aggregations read.  Nullable float columns are `Option ℚ`. -/
structure ChatQueryRow where
  session_id : String
  confidence_score : Option ℚ
  query_duration_ms : Option ℚ
  retrieval_duration_ms : Option ℚ
  generation_duration_ms : Option ℚ
  deriving DecidableEq

/-- The Python truthiness filter `[q.col for q in queries if q.col]` on a
nullable float column keeps a value iff it is present AND nonzero
(`None` and `0.0` are both falsy). -/
def truthyVal (v : Option ℚ) : Option ℚ :=
  match v with
  | some c => if c ≠ 0 then some c else none
  | none => none

/-- The dict returned by `PostgresService.get_analytics`; the empty-rows
early return omits the `period_days` key, hence the `Option`. -/
structure AnalyticsDict where
  query_count : Nat
  avg_confidence : ℚ
  avg_response_time_ms : ℚ
  unique_sessions : Nat
  period_days : Option Nat
  deriving DecidableEq

/-- `PostgresService.get_analytics` on the rows inside the days_back
window (the SQL window filter itself is the caller's row set here). -/
def get_analytics (queries : List ChatQueryRow) (days_back : Nat := 7) :
    AnalyticsDict :=
  if queries = [] then
    { query_count := 0, avg_confidence := 0, avg_response_time_ms := 0,
      unique_sessions := 0, period_days := none }
  else
    let confidences := queries.filterMap fun q => truthyVal q.confidence_score
    let durations := queries.filterMap fun q => truthyVal q.query_duration_ms
    let sessions := (queries.map ChatQueryRow.session_id).dedup
    { query_count := queries.length,
      avg_confidence :=
        if confidences = [] then 0
        else confidences.sum / (confidences.length : ℚ),
      avg_response_time_ms :=
        if durations = [] then 0 else durations.sum / (durations.length : ℚ),
      unique_sessions := sessions.length,
      period_days := some days_back }

/-- The nested `percentile(data, p)` helper inside
`AnalyticsService.get_performance_metrics`: nearest-rank at index
`int(len(sorted_data) * p / 100)`, clamped to the last element.  Modelled
with exact rationals: `n*p` is an exact machine integer and the float
division `n*p/100` never rounds across an integer for any feasible `n`
(non-integer exact quotients sit at least 1/20 away from an integer),
so `int(...)` equals the rational floor. -/
def percentile (data : List ℚ) (p : ℚ) : ℚ :=
  if data = [] then 0
  else
    let sorted_data := List.insertionSort (· ≤ ·) data
    let idx := (((data.length : ℚ) * p / 100).floor).toNat
    sorted_data.getD (min idx (sorted_data.length - 1)) 0

/-- The dict returned by `AnalyticsService.get_performance_metrics`. -/
structure PerformanceMetricsDict where
  query_count : Nat
  period_days : Nat
  avg_confidence : ℚ
  min_confidence : ℚ
  max_confidence : ℚ
  avg_response_time_ms : ℚ
  p95_response_time_ms : ℚ
  avg_retrieval_time_ms : ℚ
  avg_generation_time_ms : ℚ
  unique_sessions : Nat
  deriving DecidableEq

/-- `AnalyticsService._empty_metrics`. -/
def _empty_metrics (days_back : Nat) : PerformanceMetricsDict :=
  { query_count := 0, period_days := days_back, avg_confidence := 0,
    min_confidence := 0, max_confidence := 0, avg_response_time_ms := 0,
    p95_response_time_ms := 0, avg_retrieval_time_ms := 0,
    avg_generation_time_ms := 0, unique_sessions := 0 }

/-- `AnalyticsService.get_performance_metrics` on the rows inside the
window.  Note the defaults on empty filtered lists:
`min(confidences) if confidences else 0` but
`max(confidences) if confidences else 1`. -/
def get_performance_metrics (queries : List ChatQueryRow)
    (days_back : Nat := 7) : PerformanceMetricsDict :=
  if queries = [] then _empty_metrics days_back
  else
    let confidences := queries.filterMap fun q => truthyVal q.confidence_score
    let durations := queries.filterMap fun q => truthyVal q.query_duration_ms
    let retrieval_times :=
      queries.filterMap fun q => truthyVal q.retrieval_duration_ms
    let generation_times :=
      queries.filterMap fun q => truthyVal q.generation_duration_ms
    { query_count := queries.length,
      period_days := days_back,
      avg_confidence :=
        if confidences = [] then 0
        else confidences.sum / (confidences.length : ℚ),
      min_confidence := confidences.min?.getD 0,
      max_confidence := confidences.max?.getD 1,
      avg_response_time_ms :=
        if durations = [] then 0 else durations.sum / (durations.length : ℚ),
      p95_response_time_ms :=
        if durations = [] then 0 else percentile durations 95,
      avg_retrieval_time_ms :=
        if retrieval_times = [] then 0
        else retrieval_times.sum / (retrieval_times.length : ℚ),
      avg_generation_time_ms :=
        if generation_times = [] then 0
        else generation_times.sum / (generation_times.length : ℚ),
      unique_sessions := (queries.map ChatQueryRow.session_id).dedup.length }

/-- The stats dict of `MetricsCollector.get_summary_stats`. -/
structure SummaryStats where
  count : Nat
  sum : ℚ
  avg : ℚ
  min : ℚ
  max : ℚ
  p50 : ℚ
  p95 : ℚ
  p99 : ℚ
  deriving DecidableEq

/-- `MetricsCollector.get_summary_stats` applied to the observed values
stored under the requested key (the name/label keying is elided).  The
Python indices are `int(0.5*n)`, `int(0.95*n)`, `int(0.99*n)`; as with
`percentile`, the float products never round across an integer for any
feasible `n`, so they are modelled as exact rational floors. -/
def get_summary_stats (values : List ℚ) : SummaryStats :=
  if values = [] then
    { count := 0, sum := 0, avg := 0, min := 0, max := 0,
      p50 := 0, p95 := 0, p99 := 0 }
  else
    let sorted_values := List.insertionSort (· ≤ ·) values
    let n := sorted_values.length
    let p50_idx := ((((1 : ℚ)/2) * n).floor).toNat
    let p95_idx := ((((19 : ℚ)/20) * n).floor).toNat
    let p99_idx := ((((99 : ℚ)/100) * n).floor).toNat
    { count := n,
      sum := sorted_values.sum,
      avg := if n > 0 then sorted_values.sum / (n : ℚ) else 0,
      min := if n > 0 then sorted_values.getD 0 0 else 0,
      max := if n > 0 then sorted_values.getD (n - 1) 0 else 0,
      p50 := if p50_idx < n then sorted_values.getD p50_idx 0 else 0,
      p95 := if p95_idx < n then sorted_values.getD p95_idx 0 else 0,
      p99 := if p99_idx < n then sorted_values.getD p99_idx 0 else 0 }

/- Spec-words comparison definitions and concrete instances used by the
   theorems below. -/

/-- Written from the specification words, for comparison with
`re_match_session_id` (the source behaviour): a full match of
`^[a-zA-Z0-9\-_]{10,50}$` in the sense of "10 to 50 characters drawn only
from the class, with no additional characters before or after". -/
def session_id_full_match (s : List Char) : Bool :=
  decide (10 ≤ s.length) && decide (s.length ≤ 50) && s.all sessionChar

/-- Written from the specification words, for comparison with
`get_analytics` (the source behaviour): the mean of the rows' NON-NULL
confidence scores, 0 when there are none. -/
def avg_non_null_confidence (queries : List ChatQueryRow) : ℚ :=
  let cs := queries.filterMap ChatQueryRow.confidence_score
  if cs = [] then 0 else cs.sum / (cs.length : ℚ)

/-- A nominal successful pipeline result, used to instantiate the handler
where the pipeline outcome is irrelevant. -/
def exampleRagResult : RagResult :=
  { response_text := "Humanoid robots combine perception and actuation.",
    source_references := [],
    confidence_score := 9/10,
    timestamp := none }

/-- A concrete environment whose vector search returns no chunks. -/
def emptySearchEnv : RagEnv :=
  { generate_embedding := fun _ => .ok [],
    search_similar_chunks := fun _ _ => .ok [],
    generate_response_for_query := fun _ p => .ok p,
    save_query := fun _ => .ok () }

/-- A concrete retrieved chunk. -/
def chunkW : Chunk :=
  { text := "Walking pattern generation for biped robots.",
    similarity_score := some (92/100),
    chapter := some 3,
    lesson := some 2,
    section_ := some "Walking Pattern Generation" }

/-- Concrete attempt outcomes: SQLAlchemy errors on attempts 0 and 1,
success on attempt 2. -/
def retryOutW : Nat → AttemptOutcome Nat :=
  fun i => if i < 2 then .sqlErr ("connection refused " ++ toString i) else .ok 42

/-- A stored row whose confidence is present but exactly 0.0. -/
def rowZeroConf : ChatQueryRow :=
  { session_id := "session-aaaaa", confidence_score := some 0,
    query_duration_ms := some 100, retrieval_duration_ms := none,
    generation_duration_ms := none }

/-- A stored row with confidence 0.5. -/
def rowHalfConf : ChatQueryRow :=
  { session_id := "session-bbbbb", confidence_score := some (1/2),
    query_duration_ms := none, retrieval_duration_ms := none,
    generation_duration_ms := none }

/- Theorems. -/

/-- Claim C1: the handler is claimed to map an invalid-input failure raised
by `validate_query_input` to HTTP 400 with the validation message, a
QdrantUnavailableError to 503 and a GeminiAPIError to 502.  The 503 and 502
mappings hold, but the 400 mapping does not: `query_chatbot` catches
`app.utils.exceptions.ValidationError` while the validators raise
`app.utils.validators.ValidationError`, so for the session id "abc12"
(which passes the looser request schema but fails the session-id regex) the
raised error falls through to the generic handler and the response is
HTTP 500 with the generic message, not 400. -/
theorem query_chatbot_error_mapping :
    chat_query_request_session_ok "abc12" = true ∧
    validate_query_input "What is a humanoid robot?" "abc12" none =
      .error (.validatorsValidationError
        ("Invalid session ID format. Must match pattern: " ++ SESSION_ID_PATTERN)) ∧
    query_chatbot "What is a humanoid robot?" "abc12" none
        (.ok exampleRagResult) "2026-01-01T00:00:00" =
      .error (500, "An unexpected error occurred. Please try again.") ∧
    query_chatbot "What is a humanoid robot?" "session-12345" none
        (.error (.qdrantUnavailableError "Vector search temporarily unavailable"))
        "2026-01-01T00:00:00" =
      .error (503, "Vector search temporarily unavailable") ∧
    query_chatbot "What is a humanoid robot?" "session-12345" none
        (.error (.geminiAPIError "Unable to generate response"))
        "2026-01-01T00:00:00" =
      .error (502, "Unable to generate response") :=
  ⟨rfl, rfl, rfl, rfl, rfl⟩

/-- Claim C2: a DatabaseError raised by the pipeline IS caught by the
handler's `except DatabaseError` clause (modelled by `handler_stage2`
returning `some`-free continuation), but the claimed 200 success response
is never produced: the local `rag_result` was never assigned, so building
the response raises UnboundLocalError, which the outer `except Exception`
maps to HTTP 500 with the generic message. -/
theorem query_chatbot_database_error_gives_500 :
    (∀ m : String, handler_stage2 (.error (.databaseError m)) = .ok none) ∧
    query_chatbot "What is a humanoid robot?" "session-12345" none
        (.error (.databaseError "Failed to save query: connection lost"))
        "2026-01-01T00:00:00" =
      .error (500, "An unexpected error occurred. Please try again.") :=
  ⟨fun _ => rfl, rfl⟩

/-- Claim C3: the health endpoint is claimed to aggregate to "unhealthy"
when all three dependency checks fail.  In the code `some_degraded` is
`not all([...])`, which is true whenever `all_healthy` is false, so the
all-fail combination yields "degraded" and the "unhealthy" branch is
unreachable for every combination of check outcomes. -/
theorem health_check_status_all_fail :
    health_check_status false false false = "degraded" ∧
    (∀ q g p : Bool, health_check_status q g p =
      if q && g && p then "healthy" else "degraded") ∧
    ∀ q g p : Bool, health_check_status q g p ≠ "unhealthy" := by
  refine ⟨rfl, ?_, ?_⟩ <;> decide

/-- Claim C4: for a non-empty chunk list the confidence helper returns
`clamp(0.3, 1.0, 0.7*avg_similarity + 0.3*min(len(response)/200, 1))`
(written here as `max (3/10) (min ... 1)`), the result always lies in
`[0.3, 1]`, and for an empty chunk list the helper returns exactly 0. -/
theorem calculate_confidence_score_spec (chunks : List Chunk) (response : String) :
    (chunks ≠ [] →
      _calculate_confidence_score chunks response =
        max (3/10)
          (min ((7/10) *
              ((chunks.map fun c => c.similarity_score.getD 0).sum /
                (chunks.length : ℚ)) +
            (3/10) * min ((response.length : ℚ) / 200) 1) 1) ∧
      3/10 ≤ _calculate_confidence_score chunks response ∧
      _calculate_confidence_score chunks response ≤ 1) ∧
    _calculate_confidence_score [] response = 0 := by
  constructor
  · intro h
    unfold _calculate_confidence_score
    rw [if_neg h]
    unfold MIN_CONFIDENCE_SCORE
    refine ⟨?_, le_max_left _ _, ?_⟩
    · ring_nf
    · exact max_le (by norm_num) (min_le_right _ 1)
  · rfl

/-- Witness for C4 at a concrete non-empty chunk list. -/
theorem calculate_confidence_score_spec_witness :
    3/10 ≤ _calculate_confidence_score [chunkW] "A short answer." ∧
    _calculate_confidence_score [chunkW] "A short answer." ≤ 1 := by
  have h :=
    (calculate_confidence_score_spec [chunkW] "A short answer.").1
      (List.cons_ne_nil _ _)
  exact ⟨h.2.1, h.2.2⟩

/-- Claim C5: whenever validation passes, the embedding call succeeds and
the vector search returns zero chunks, `process_query` returns the fixed
no-results response — whose text contains "couldn\x27t find relevant
information" — with an empty source list and confidence exactly 0, and the
trace records that neither the LLM generation call nor the persistence
save was invoked. -/
theorem process_query_no_chunks (env : RagEnv) (question session_id : String)
    (selected_context : Option String) (emb : List ℚ)
    (hv : validate_query_input question session_id selected_context = .ok ())
    (he : env.generate_embedding question = .ok emb)
    (hs : env.search_similar_chunks emb MAX_RETRIEVED_CHUNKS = .ok []) :
    process_query env question session_id selected_context =
      (.ok { response_text := "I couldn\x27t find relevant information about your question in the course materials.",
             source_references := [],
             confidence_score := 0,
             timestamp := none },
       ⟨false, false⟩) ∧
    "I " ++ "couldn\x27t find relevant information" ++
        " about your question in the course materials." =
      "I couldn\x27t find relevant information about your question in the course materials." := by
  refine ⟨?_, rfl⟩
  unfold process_query
  simp only [hv, he, hs, if_true]

/-- Witness for C5 at a concrete environment and request. -/
theorem process_query_no_chunks_witness :
    process_query emptySearchEnv "What is a humanoid robot?" "session-12345" none =
      (.ok { response_text := "I couldn\x27t find relevant information about your question in the course materials.",
             source_references := [],
             confidence_score := 0,
             timestamp := none },
       ⟨false, false⟩) :=
  (process_query_no_chunks emptySearchEnv "What is a humanoid robot?"
    "session-12345" none [] rfl rfl rfl).1

/-- Claim C6: the retry decorator at its `save_query` configuration
(max_retries=3, initial_delay=0.1, backoff_factor=2).  If every attempt
fails with a database-layer (SQLAlchemy) error, exactly 4 attempts are
made, the sleeps between successive attempts are 0.1s, 0.2s, 0.4s, and the
error of the final attempt is re-raised.  If an attempt succeeds after only
database-layer failures, its result is returned.  A non-database-layer
error is raised immediately, with no retry after it. -/
theorem retry_on_connection_error_spec {V : Type}
    (outcomes : Nat → AttemptOutcome V) :
    (∀ e0 e1 e2 e3,
      outcomes 0 = .sqlErr e0 → outcomes 1 = .sqlErr e1 →
      outcomes 2 = .sqlErr e2 → outcomes 3 = .sqlErr e3 →
      retry_on_connection_error outcomes =
        (.error (.db e3), [1/10, 2/10, 4/10])) ∧
    (∀ j v, j ≤ 3 → (∀ i, i < j → ∃ e, outcomes i = .sqlErr e) →
      outcomes j = .ok v →
      retry_on_connection_error outcomes =
        (.ok v, (List.range j).map fun i => (1/10 : ℚ) * 2 ^ i)) ∧
    (∀ j e, j ≤ 3 → (∀ i, i < j → ∃ ei, outcomes i = .sqlErr ei) →
      outcomes j = .otherErr e →
      retry_on_connection_error outcomes =
        (.error (.nonDb e), (List.range j).map fun i => (1/10 : ℚ) * 2 ^ i)) := by
  refine ⟨?_, ?_, ?_⟩
  · intro e0 e1 e2 e3 h0 h1 h2 h3
    unfold retry_on_connection_error
    simp only [retryLoop, h0, h1, h2, h3]
    norm_num
  · intro j v hj hprev hj_ok
    interval_cases j
    · unfold retry_on_connection_error
      simp only [retryLoop, hj_ok]
      simp
    · obtain ⟨e0, h0⟩ := hprev 0 (by norm_num)
      unfold retry_on_connection_error
      simp only [retryLoop, h0, hj_ok]
      norm_num [List.range_succ]
    · obtain ⟨e0, h0⟩ := hprev 0 (by norm_num)
      obtain ⟨e1, h1⟩ := hprev 1 (by norm_num)
      unfold retry_on_connection_error
      simp only [retryLoop, h0, h1, hj_ok]
      norm_num [List.range_succ]
    · obtain ⟨e0, h0⟩ := hprev 0 (by norm_num)
      obtain ⟨e1, h1⟩ := hprev 1 (by norm_num)
      obtain ⟨e2, h2⟩ := hprev 2 (by norm_num)
      unfold retry_on_connection_error
      simp only [retryLoop, h0, h1, h2, hj_ok]
      norm_num [List.range_succ]
  · intro j e hj hprev hj_other
    interval_cases j
    · unfold retry_on_connection_error
      simp only [retryLoop, hj_other]
      simp
    · obtain ⟨e0, h0⟩ := hprev 0 (by norm_num)
      unfold retry_on_connection_error
      simp only [retryLoop, h0, hj_other]
      norm_num [List.range_succ]
    · obtain ⟨e0, h0⟩ := hprev 0 (by norm_num)
      obtain ⟨e1, h1⟩ := hprev 1 (by norm_num)
      unfold retry_on_connection_error
      simp only [retryLoop, h0, h1, hj_other]
      norm_num [List.range_succ]
    · obtain ⟨e0, h0⟩ := hprev 0 (by norm_num)
      obtain ⟨e1, h1⟩ := hprev 1 (by norm_num)
      obtain ⟨e2, h2⟩ := hprev 2 (by norm_num)
      unfold retry_on_connection_error
      simp only [retryLoop, h0, h1, h2, hj_other]
      norm_num [List.range_succ]

/-- Witness for C6: two connection failures then success on the third
attempt, with sleeps 0.1s and 0.2s. -/
theorem retry_on_connection_error_spec_witness :
    retry_on_connection_error retryOutW = (.ok 42, [1/10, 2/10]) := by
  have h := (retry_on_connection_error_spec retryOutW).2.1 2 42 (by norm_num)
    (fun i hi => by interval_cases i <;> exact ⟨_, rfl⟩) rfl
  rw [h]
  norm_num [List.range_succ]

/-- Helper: characterization of the Python match for the session pattern:
it succeeds exactly on 10-50 class characters, or 10-50 class characters
followed by one trailing newline. -/
theorem re_match_session_id_iff (l : List Char) :
    re_match_session_id l = true ↔
      ((10 ≤ l.length ∧ l.length ≤ 50 ∧ ∀ c ∈ l, sessionChar c) ∨
        (11 ≤ l.length ∧ l.length ≤ 51 ∧
          (∀ c ∈ l.dropLast, sessionChar c) ∧ l.getLast? = some '\n')) := by
  unfold re_match_session_id
  rw [List.any_eq_true]
  constructor
  · rintro ⟨k, hk, hcond⟩
    rw [List.mem_range'_1] at hk
    simp only [Bool.and_eq_true, Bool.or_eq_true, decide_eq_true_eq,
      List.all_eq_true] at hcond
    obtain ⟨⟨hkle, hall⟩, hend⟩ := hcond
    rcases hend with hlen | ⟨hlen, hlast⟩
    · left
      have htake : l.take k = l := by rw [← hlen, List.take_length]
      exact ⟨by omega, by omega, fun c hc => hall c (by rw [htake]; exact hc)⟩
    · right
      have htake : l.dropLast = l.take k := by
        rw [List.dropLast_eq_take, hlen]
        simp
      exact ⟨by omega, by omega,
        fun c hc => hall c (by rw [← htake]; exact hc), hlast⟩
  · rintro (⟨h10, h50, hall⟩ | ⟨h11, h51, hall, hlast⟩)
    · refine ⟨l.length, ?_, ?_⟩
      · rw [List.mem_range'_1]; omega
      · rw [Bool.and_eq_true, Bool.and_eq_true, Bool.or_eq_true]
        refine ⟨⟨by simp, ?_⟩, Or.inl (by simp)⟩
        rw [List.all_eq_true, List.take_length]
        exact fun c hc => hall c hc
    · refine ⟨l.length - 1, ?_, ?_⟩
      · rw [List.mem_range'_1]; omega
      · have htake : l.dropLast = l.take (l.length - 1) := List.dropLast_eq_take l
        rw [Bool.and_eq_true, Bool.and_eq_true, Bool.or_eq_true]
        refine ⟨⟨by simp, ?_⟩, Or.inr ?_⟩
        · rw [List.all_eq_true]
          exact fun c hc => hall c (by rw [htake]; exact hc)
        · rw [Bool.and_eq_true]
          refine ⟨by simp only [decide_eq_true_eq]; omega,
            by simp only [decide_eq_true_eq]; exact hlast⟩

/-- Counterexample to claim C7 as stated: the string "abcdefghij\n" does
NOT fully match the pattern (its final character is outside the class),
yet `validate_session_id` raises nothing, because Python's `$` in
`re.match` also matches just before a newline that ends the string. -/
theorem validate_session_id_claim_counterexample :
    validate_session_id "abcdefghij\n" = .ok () ∧
    session_id_full_match "abcdefghij\n".toList = false :=
  ⟨rfl, rfl⟩

/-- Claim C7 (amended): `validate_session_id` accepts a string exactly
when it consists of 10 to 50 characters drawn from ASCII letters, digits,
hyphen and underscore, OPTIONALLY followed by a single trailing newline
(the Python `$` quirk); every other string is rejected. -/
theorem validate_session_id_iff (s : String) :
    validate_session_id s = .ok () ↔
      ((10 ≤ s.toList.length ∧ s.toList.length ≤ 50 ∧
          ∀ c ∈ s.toList, sessionChar c) ∨
        (11 ≤ s.toList.length ∧ s.toList.length ≤ 51 ∧
          (∀ c ∈ s.toList.dropLast, sessionChar c) ∧
          s.toList.getLast? = some '\n')) := by
  unfold validate_session_id
  by_cases h : re_match_session_id s.toList
  · rw [if_pos h]
    exact iff_of_true rfl ((re_match_session_id_iff s.toList).mp h)
  · rw [if_neg h]
    refine iff_of_false (by simp) ?_
    intro hr
    exact h ((re_match_session_id_iff s.toList).mpr hr)

/-- Counterexample to claim C8 as stated: with one row whose confidence is
exactly 0.0 (non-null!) and one at 0.5, `get_analytics` reports 0.5 —
the Python truthiness filter `if q.confidence_score` drops 0.0 along with
null — while the mean of the non-null confidence scores is 0.25. -/
theorem get_analytics_avg_confidence_counterexample :
    (get_analytics [rowZeroConf, rowHalfConf] 7).avg_confidence = 1/2 ∧
    avg_non_null_confidence [rowZeroConf, rowHalfConf] = 1/4 ∧
    (get_analytics [rowZeroConf, rowHalfConf] 7).avg_confidence ≠
      avg_non_null_confidence [rowZeroConf, rowHalfConf] := by
  have e1 : List.filterMap (fun q => truthyVal q.confidence_score)
      [rowZeroConf, rowHalfConf] = [1/2] := by
    simp [truthyVal, rowZeroConf, rowHalfConf]
  have e2 : List.filterMap ChatQueryRow.confidence_score
      [rowZeroConf, rowHalfConf] = [0, 1/2] := by
    simp [rowZeroConf, rowHalfConf]
  have h1 : (get_analytics [rowZeroConf, rowHalfConf] 7).avg_confidence = 1/2 := by
    unfold get_analytics
    rw [if_neg (List.cons_ne_nil _ _)]
    simp only [e1, List.sum_cons, List.sum_nil, List.length_cons, List.length_nil]
    norm_num
  have h2 : avg_non_null_confidence [rowZeroConf, rowHalfConf] = 1/4 := by
    unfold avg_non_null_confidence
    simp only [e2, List.sum_cons, List.sum_nil, List.length_cons, List.length_nil]
    rw [if_neg (List.cons_ne_nil _ _)]
    norm_num
  refine ⟨h1, h2, ?_⟩
  rw [h1, h2]
  norm_num

/-- Claim C8 (amended): for rows within the window, `get_analytics`
reports `query_count` = number of rows, `unique_sessions` = number of
distinct session ids, `avg_confidence` = mean of the non-null AND NONZERO
confidence scores (0 when there are none), and `avg_response_time_ms` =
mean of the non-null and nonzero query durations (0 when there are none). -/
theorem get_analytics_spec (queries : List ChatQueryRow) (days_back : Nat)
    (h : queries ≠ []) :
    (get_analytics queries days_back).query_count = queries.length ∧
    (get_analytics queries days_back).unique_sessions =
      (queries.map ChatQueryRow.session_id).toFinset.card ∧
    ((queries.filterMap fun q => truthyVal q.confidence_score) = [] →
      (get_analytics queries days_back).avg_confidence = 0) ∧
    (∀ cs, cs = queries.filterMap (fun q => truthyVal q.confidence_score) →
      cs ≠ [] →
      (get_analytics queries days_back).avg_confidence * (cs.length : ℚ) =
        cs.sum) ∧
    ((queries.filterMap fun q => truthyVal q.query_duration_ms) = [] →
      (get_analytics queries days_back).avg_response_time_ms = 0) ∧
    (∀ ds, ds = queries.filterMap (fun q => truthyVal q.query_duration_ms) →
      ds ≠ [] →
      (get_analytics queries days_back).avg_response_time_ms *
        (ds.length : ℚ) = ds.sum) := by
  have key : ∀ xs : List ℚ, xs ≠ [] →
      (if xs = [] then (0 : ℚ) else xs.sum / (xs.length : ℚ)) *
        (xs.length : ℚ) = xs.sum := by
    intro xs hxs
    rw [if_neg hxs]
    exact div_mul_cancel₀ _
      (Nat.cast_ne_zero.mpr (List.length_pos.mpr hxs).ne')
  have heq : get_analytics queries days_back =
      { query_count := queries.length,
        avg_confidence :=
          if (queries.filterMap fun q => truthyVal q.confidence_score) = []
          then 0
          else (queries.filterMap fun q => truthyVal q.confidence_score).sum /
            (((queries.filterMap fun q =>
                truthyVal q.confidence_score)).length : ℚ),
        avg_response_time_ms :=
          if (queries.filterMap fun q => truthyVal q.query_duration_ms) = []
          then 0
          else (queries.filterMap fun q => truthyVal q.query_duration_ms).sum /
            (((queries.filterMap fun q =>
                truthyVal q.query_duration_ms)).length : ℚ),
        unique_sessions := (queries.map ChatQueryRow.session_id).dedup.length,
        period_days := some days_back } := by
    unfold get_analytics
    rw [if_neg h]
  rw [heq]
  refine ⟨rfl, (List.card_toFinset _).symm, ?_, ?_, ?_, ?_⟩
  · intro hc; exact if_pos hc
  · intro cs hcs hne; rw [hcs]; exact key _ (hcs ▸ hne)
  · intro hd; exact if_pos hd
  · intro ds hds hne; rw [hds]; exact key _ (hds ▸ hne)

/-- Witness for C8 at the two concrete rows. -/
theorem get_analytics_spec_witness :
    (get_analytics [rowZeroConf, rowHalfConf] 7).query_count = 2 ∧
    (get_analytics [rowZeroConf, rowHalfConf] 7).unique_sessions =
      ([rowZeroConf, rowHalfConf].map ChatQueryRow.session_id).toFinset.card := by
  have h := get_analytics_spec [rowZeroConf, rowHalfConf] 7
    (List.cons_ne_nil _ _)
  exact ⟨h.1, h.2.1⟩

/-- Helper: `Rat.floor` agrees with the floor of the archimedean order
structure (the ℚ FloorRing instance is built from `Rat.floor`). -/
theorem rat_floor_eq_int_floor (q : ℚ) : q.floor = ⌊q⌋ := rfl

/-- Helper: the nearest-rank index is always in range for a non-empty list
and a percentile below 100, so the clamp in `percentile` and the
index guard in `get_summary_stats` never engage. -/
theorem nearest_rank_idx_lt (n : Nat) (p : ℚ) (hn : 0 < n) (hp0 : 0 ≤ p)
    (hp : p < 100) : (((n : ℚ) * p / 100).floor).toNat < n := by
  have h1 : (n : ℚ) * p / 100 < n := by
    rw [div_lt_iff₀ (by norm_num : (0:ℚ) < 100)]
    have h2 : (n : ℚ) * p < (n : ℚ) * 100 :=
      mul_lt_mul_of_pos_left hp (by exact_mod_cast hn)
    linarith
  have h3 : ((n : ℚ) * p / 100).floor < (n : ℤ) := by
    rw [rat_floor_eq_int_floor, Int.floor_lt]
    exact_mod_cast h1
  omega

/-- Helper: `percentile` unfolded on a non-empty list. -/
theorem percentile_eq (values : List ℚ) (p : ℚ) (h : values ≠ []) :
    percentile values p =
      (List.insertionSort (· ≤ ·) values).getD
        (min (((values.length : ℚ) * p / 100).floor).toNat
          ((List.insertionSort (· ≤ ·) values).length - 1)) 0 := by
  unfold percentile
  rw [if_neg h]

/-- Helper: `percentile` computes the unclamped nearest rank whenever the
list is non-empty and the percentile is in [0, 100). -/
theorem percentile_nearest_rank (values : List ℚ) (p : ℚ) (h : values ≠ [])
    (hp0 : 0 ≤ p) (hp : p < 100) :
    percentile values p =
      (List.insertionSort (· ≤ ·) values).getD
        ((((values.length : ℚ) * p / 100).floor).toNat) 0 := by
  rw [percentile_eq values p h, List.length_insertionSort]
  have hidx := nearest_rank_idx_lt values.length p
    (List.length_pos.mpr h) hp0 hp
  rw [Nat.min_eq_left (by omega)]

/-- Helper: the `p50` field of `get_summary_stats` unfolded on a
non-empty list. -/
theorem get_summary_stats_p50_eq (values : List ℚ) (h : values ≠ []) :
    (get_summary_stats values).p50 =
      if ((((1 : ℚ)/2) *
            ((List.insertionSort (· ≤ ·) values).length : ℚ)).floor).toNat <
          (List.insertionSort (· ≤ ·) values).length then
        (List.insertionSort (· ≤ ·) values).getD
          (((((1 : ℚ)/2) *
            ((List.insertionSort (· ≤ ·) values).length : ℚ)).floor).toNat) 0
      else 0 := by
  unfold get_summary_stats
  rw [if_neg h]

/-- Helper: the `p95` field of `get_summary_stats` unfolded. -/
theorem get_summary_stats_p95_eq (values : List ℚ) (h : values ≠ []) :
    (get_summary_stats values).p95 =
      if ((((19 : ℚ)/20) *
            ((List.insertionSort (· ≤ ·) values).length : ℚ)).floor).toNat <
          (List.insertionSort (· ≤ ·) values).length then
        (List.insertionSort (· ≤ ·) values).getD
          (((((19 : ℚ)/20) *
            ((List.insertionSort (· ≤ ·) values).length : ℚ)).floor).toNat) 0
      else 0 := by
  unfold get_summary_stats
  rw [if_neg h]

/-- Helper: the `p99` field of `get_summary_stats` unfolded. -/
theorem get_summary_stats_p99_eq (values : List ℚ) (h : values ≠ []) :
    (get_summary_stats values).p99 =
      if ((((99 : ℚ)/100) *
            ((List.insertionSort (· ≤ ·) values).length : ℚ)).floor).toNat <
          (List.insertionSort (· ≤ ·) values).length then
        (List.insertionSort (· ≤ ·) values).getD
          (((((99 : ℚ)/100) *
            ((List.insertionSort (· ≤ ·) values).length : ℚ)).floor).toNat) 0
      else 0 := by
  unfold get_summary_stats
  rw [if_neg h]

/-- Claim C9: for every non-empty list of observed summary values,
`get_summary_stats` computes p50/p95/p99 as the sorted value at index
`floor(percentile/100 × n)` (nearest rank, no interpolation; the
defensive out-of-range guard never engages); for the values 1..10 the
reported p50 is 6; and the analytics service's `percentile` helper
computes the same nearest rank, its clamp to the last element never
engaging for these percentiles. -/
theorem get_summary_stats_percentiles (values : List ℚ) (h : values ≠ []) :
    ((get_summary_stats values).p50 =
        (List.insertionSort (· ≤ ·) values).getD
          ((((values.length : ℚ) * 50 / 100).floor).toNat) 0 ∧
      (get_summary_stats values).p95 =
        (List.insertionSort (· ≤ ·) values).getD
          ((((values.length : ℚ) * 95 / 100).floor).toNat) 0 ∧
      (get_summary_stats values).p99 =
        (List.insertionSort (· ≤ ·) values).getD
          ((((values.length : ℚ) * 99 / 100).floor).toNat) 0) ∧
    ((get_summary_stats values).p50 = percentile values 50 ∧
      (get_summary_stats values).p95 = percentile values 95 ∧
      (get_summary_stats values).p99 = percentile values 99) ∧
    (get_summary_stats ([1, 2, 3, 4, 5, 6, 7, 8, 9, 10] : List ℚ)).p50 = 6 := by
  have p50eq : ∀ vs : List ℚ, vs ≠ [] →
      (get_summary_stats vs).p50 =
        (List.insertionSort (· ≤ ·) vs).getD
          ((((vs.length : ℚ) * 50 / 100).floor).toNat) 0 := by
    intro vs hvs
    rw [get_summary_stats_p50_eq vs hvs, List.length_insertionSort]
    have harith : ((1 : ℚ)/2) * (vs.length : ℚ) =
        (vs.length : ℚ) * 50 / 100 := by ring
    rw [harith]
    exact if_pos (nearest_rank_idx_lt vs.length 50
      (List.length_pos.mpr hvs) (by norm_num) (by norm_num))
  have p95eq : ∀ vs : List ℚ, vs ≠ [] →
      (get_summary_stats vs).p95 =
        (List.insertionSort (· ≤ ·) vs).getD
          ((((vs.length : ℚ) * 95 / 100).floor).toNat) 0 := by
    intro vs hvs
    rw [get_summary_stats_p95_eq vs hvs, List.length_insertionSort]
    have harith : ((19 : ℚ)/20) * (vs.length : ℚ) =
        (vs.length : ℚ) * 95 / 100 := by ring
    rw [harith]
    exact if_pos (nearest_rank_idx_lt vs.length 95
      (List.length_pos.mpr hvs) (by norm_num) (by norm_num))
  have p99eq : ∀ vs : List ℚ, vs ≠ [] →
      (get_summary_stats vs).p99 =
        (List.insertionSort (· ≤ ·) vs).getD
          ((((vs.length : ℚ) * 99 / 100).floor).toNat) 0 := by
    intro vs hvs
    rw [get_summary_stats_p99_eq vs hvs, List.length_insertionSort]
    have harith : ((99 : ℚ)/100) * (vs.length : ℚ) =
        (vs.length : ℚ) * 99 / 100 := by ring
    rw [harith]
    exact if_pos (nearest_rank_idx_lt vs.length 99
      (List.length_pos.mpr hvs) (by norm_num) (by norm_num))
  refine ⟨⟨p50eq values h, p95eq values h, p99eq values h⟩,
    ⟨(p50eq values h).trans
        (percentile_nearest_rank values 50 h (by norm_num) (by norm_num)).symm,
      (p95eq values h).trans
        (percentile_nearest_rank values 95 h (by norm_num) (by norm_num)).symm,
      (p99eq values h).trans
        (percentile_nearest_rank values 99 h (by norm_num) (by norm_num)).symm⟩,
    ?_⟩
  have hlist : ([1, 2, 3, 4, 5, 6, 7, 8, 9, 10] : List ℚ) ≠ [] :=
    List.cons_ne_nil _ _
  have hsorted :
      List.insertionSort (· ≤ ·) ([1, 2, 3, 4, 5, 6, 7, 8, 9, 10] : List ℚ) =
        [1, 2, 3, 4, 5, 6, 7, 8, 9, 10] := by
    apply List.Sorted.insertionSort_eq
    norm_num [List.sorted_cons]
  rw [p50eq _ hlist, hsorted]
  norm_num [rat_floor_eq_int_floor, List.getD]
  rfl

/-- Witness for C9 at the concrete value list 1..10. -/
theorem get_summary_stats_percentiles_witness :
    (get_summary_stats ([1, 2, 3, 4, 5, 6, 7, 8, 9, 10] : List ℚ)).p50 = 6 :=
  (get_summary_stats_percentiles ([1, 2, 3, 4, 5, 6, 7, 8, 9, 10] : List ℚ)
    (List.cons_ne_nil _ _)).2.2

/-- Claim C10: in `get_performance_metrics`, null or exactly-0.0
confidence scores are excluded from the confidence aggregates (and null or
0.0 durations from the timing averages, whose value is the mean of the
remaining durations); consequently, for a non-empty window in which no row
has a nonzero confidence score, the result reports max_confidence = 1
(the `else 1` default of `max`) while min_confidence and avg_confidence
are 0. -/
theorem get_performance_metrics_zero_confidence (queries : List ChatQueryRow)
    (days_back : Nat) (h : queries ≠ [])
    (hz : (queries.filterMap fun q => truthyVal q.confidence_score) = []) :
    (get_performance_metrics queries days_back).max_confidence = 1 ∧
    (get_performance_metrics queries days_back).min_confidence = 0 ∧
    (get_performance_metrics queries days_back).avg_confidence = 0 ∧
    ((queries.filterMap fun q => truthyVal q.query_duration_ms) = [] →
      (get_performance_metrics queries days_back).avg_response_time_ms = 0) ∧
    (∀ ds, ds = queries.filterMap (fun q => truthyVal q.query_duration_ms) →
      ds ≠ [] →
      (get_performance_metrics queries days_back).avg_response_time_ms *
        (ds.length : ℚ) = ds.sum) := by
  have key : ∀ xs : List ℚ, xs ≠ [] →
      (if xs = [] then (0 : ℚ) else xs.sum / (xs.length : ℚ)) *
        (xs.length : ℚ) = xs.sum := by
    intro xs hxs
    rw [if_neg hxs]
    exact div_mul_cancel₀ _
      (Nat.cast_ne_zero.mpr (List.length_pos.mpr hxs).ne')
  have heq : get_performance_metrics queries days_back =
      { query_count := queries.length,
        period_days := days_back,
        avg_confidence :=
          if (queries.filterMap fun q => truthyVal q.confidence_score) = []
          then 0
          else (queries.filterMap fun q => truthyVal q.confidence_score).sum /
            (((queries.filterMap fun q =>
                truthyVal q.confidence_score)).length : ℚ),
        min_confidence :=
          (queries.filterMap fun q => truthyVal q.confidence_score).min?.getD 0,
        max_confidence :=
          (queries.filterMap fun q => truthyVal q.confidence_score).max?.getD 1,
        avg_response_time_ms :=
          if (queries.filterMap fun q => truthyVal q.query_duration_ms) = []
          then 0
          else (queries.filterMap fun q => truthyVal q.query_duration_ms).sum /
            (((queries.filterMap fun q =>
                truthyVal q.query_duration_ms)).length : ℚ),
        p95_response_time_ms :=
          if (queries.filterMap fun q => truthyVal q.query_duration_ms) = []
          then 0
          else percentile
            (queries.filterMap fun q => truthyVal q.query_duration_ms) 95,
        avg_retrieval_time_ms :=
          if (queries.filterMap fun q => truthyVal q.retrieval_duration_ms) = []
          then 0
          else (queries.filterMap fun q =>
              truthyVal q.retrieval_duration_ms).sum /
            (((queries.filterMap fun q =>
                truthyVal q.retrieval_duration_ms)).length : ℚ),
        avg_generation_time_ms :=
          if (queries.filterMap fun q => truthyVal q.generation_duration_ms) = []
          then 0
          else (queries.filterMap fun q =>
              truthyVal q.generation_duration_ms).sum /
            (((queries.filterMap fun q =>
                truthyVal q.generation_duration_ms)).length : ℚ),
        unique_sessions :=
          (queries.map ChatQueryRow.session_id).dedup.length } := by
    unfold get_performance_metrics
    rw [if_neg h]
  rw [heq]
  refine ⟨?_, ?_, ?_, ?_, ?_⟩
  · show (queries.filterMap fun q =>
        truthyVal q.confidence_score).max?.getD 1 = 1
    rw [hz]
    rfl
  · show (queries.filterMap fun q =>
        truthyVal q.confidence_score).min?.getD 0 = 0
    rw [hz]
    rfl
  · exact if_pos hz
  · intro hd
    exact if_pos hd
  · intro ds hds hne
    rw [hds]
    exact key _ (hds ▸ hne)

/-- Witness for C10: one row in the window, confidence present but 0.0. -/
theorem get_performance_metrics_zero_confidence_witness :
    (get_performance_metrics [rowZeroConf] 7).max_confidence = 1 ∧
    (get_performance_metrics [rowZeroConf] 7).min_confidence = 0 ∧
    (get_performance_metrics [rowZeroConf] 7).avg_confidence = 0 := by
  have h := get_performance_metrics_zero_confidence [rowZeroConf] 7
    (List.cons_ne_nil _ _) (by simp [truthyVal, rowZeroConf])
  exact ⟨h.1, h.2.1, h.2.2.1⟩
